import Mathlib

/-!
Verification of the request-pipeline builder demonstrated in
`Functional-Python-Part-3.ipynb`: the `to_get` closure, its `compose`d
response-processing chain (caller transform, `default_error_handler`,
logger), header merging via `dict.update`, and the `Todo` dataclass
decoding layer (`validate`, `Todo.from_d`, `to_todo`, `to_todo_or_none`).

Python exceptions are modelled with `Except PyError`; Python dicts with
association lists carrying `dict` update/lookup semantics; the HTTP
transport (`requests.get`) as an explicit function parameter from URL and
headers to a `Response`.
-/

namespace FPy

/-- Python runtime values occurring in decoded JSON bodies. -/
inductive PyVal where
  | pyInt : Int → PyVal
  | pyStr : String → PyVal
  | pyBool : Bool → PyVal
  | pyNone : PyVal
  deriving DecidableEq

/-- The declared field types of the `Todo` dataclass (`int`, `str`, `bool`). -/
inductive PyType where
  | tInt : PyType
  | tStr : PyType
  | tBool : PyType
  deriving DecidableEq

/-- The `isinstance` check of Python on the values and types above. In Python, `bool`
is a subclass of `int`, so a boolean passes an `int` check. -/
def isinstance : PyVal → PyType → Bool
  | .pyInt _, .tInt => true
  | .pyBool _, .tInt => true
  | .pyStr _, .tStr => true
  | .pyBool _, .tBool => true
  | _, _ => false

/-- The Python exceptions raised by the notebook code: `TypeError` from
`validate`, `KeyError` from `d[key]` subscripts, `AttributeError` from
attribute access on `None`, and the plain `Exception` raised by
`default_error_handler`. -/
inductive PyError where
  | typeError : String → PyError
  | keyError : String → PyError
  | attributeError : String → PyError
  | exception : String → PyError
  deriving DecidableEq

/-- Header dictionaries: association lists of header name to value,
in insertion order, as Python dicts are. -/
abbrev HeaderDict := List (String × String)

/-- `d[k] = v` on a Python dict: replace the value in place if the key is
present (keeping its position), else append the new binding. -/
def dictSet (d : HeaderDict) (k v : String) : HeaderDict :=
  if d.any (fun p => p.1 = k) then
    d.map (fun p => if p.1 = k then (p.1, v) else p)
  else
    d ++ [(k, v)]

/-- `d.update(overlay)` on a Python dict: set each binding of the overlay
into `d`, in order. Keys of the overlay win on collision; keys absent from
the overlay keep their values in `d`. -/
def dictUpdate (d overlay : HeaderDict) : HeaderDict :=
  overlay.foldl (fun acc p => dictSet acc p.1 p.2) d

/-- Dict lookup `d.get(k)`: the value of the (unique) binding of `k`. -/
def dictGet (d : HeaderDict) (k : String) : Option String :=
  (d.find? (fun p => p.1 = k)).map (fun p => p.2)

theorem dictGet_cons_pos (p : String × String) (tl : HeaderDict) (k : String)
    (h : p.1 = k) : dictGet (p :: tl) k = some p.2 := by
  unfold dictGet
  rw [List.find?_cons_of_pos _ (by simpa using h)]
  rfl

theorem dictGet_cons_neg (p : String × String) (tl : HeaderDict) (k : String)
    (h : ¬ p.1 = k) : dictGet (p :: tl) k = dictGet tl k := by
  unfold dictGet
  rw [List.find?_cons_of_neg _ (by simpa using h)]

theorem dictGet_append (d e : HeaderDict) (k : String) :
    dictGet (d ++ e) k = match dictGet d k with
      | some v => some v
      | none => dictGet e k := by
  induction d with
  | nil => rfl
  | cons p tl ih =>
      by_cases hp : p.1 = k
      · rw [List.cons_append, dictGet_cons_pos _ _ _ hp, dictGet_cons_pos _ _ _ hp]
      · rw [List.cons_append, dictGet_cons_neg _ _ _ hp, dictGet_cons_neg _ _ _ hp, ih]

theorem dictGet_eq_none_of_not_any (d : HeaderDict) (k : String)
    (h : d.any (fun p => p.1 = k) = false) : dictGet d k = none := by
  induction d with
  | nil => rfl
  | cons p tl ih =>
      simp only [List.any_cons, Bool.or_eq_false_iff, decide_eq_false_iff_not] at h
      rw [dictGet_cons_neg _ _ _ h.1]
      exact ih (by simpa using h.2)

theorem dictGet_isSome_of_any (d : HeaderDict) (k : String)
    (h : d.any (fun p => p.1 = k) = true) : ∃ w, dictGet d k = some w := by
  induction d with
  | nil => simp at h
  | cons p tl ih =>
      by_cases hp : p.1 = k
      · exact ⟨p.2, dictGet_cons_pos p tl k hp⟩
      · rw [dictGet_cons_neg p tl k hp]
        exact ih (by simpa [List.any_cons, hp] using h)

theorem dictGet_map_set (d : HeaderDict) (k v : String) :
    dictGet (d.map (fun p => if p.1 = k then (p.1, v) else p)) k =
      match dictGet d k with
      | some _ => some v
      | none => none := by
  induction d with
  | nil => rfl
  | cons p tl ih =>
      by_cases hp : p.1 = k
      · rw [List.map_cons, if_pos hp, dictGet_cons_pos (p.1, v) _ k hp,
          dictGet_cons_pos p _ k hp]
      · rw [List.map_cons, if_neg hp, dictGet_cons_neg p _ k hp,
          dictGet_cons_neg p _ k hp, ih]

/-- After `dictSet d k v`, looking up `k` yields `v`. -/
theorem dictGet_dictSet_same (d : HeaderDict) (k v : String) :
    dictGet (dictSet d k v) k = some v := by
  unfold dictSet
  by_cases h : d.any (fun p => p.1 = k) = true
  · rw [if_pos h, dictGet_map_set]
    obtain ⟨w, hw⟩ := dictGet_isSome_of_any d k h
    rw [hw]
  · rw [if_neg h, dictGet_append,
      dictGet_eq_none_of_not_any d k (Bool.eq_false_iff.mpr h)]
    exact dictGet_cons_pos (k, v) [] k rfl

/-- `dictSet` at key `k` leaves lookups of other keys unchanged. -/
theorem dictGet_dictSet_other (d : HeaderDict) (k v q : String) (hq : q ≠ k) :
    dictGet (dictSet d k v) q = dictGet d q := by
  unfold dictSet
  by_cases h : d.any (fun p => p.1 = k) = true
  · rw [if_pos h]
    clear h
    induction d with
    | nil => rfl
    | cons p tl ih =>
        by_cases hpq : p.1 = q
        · have hpk : ¬ p.1 = k := fun hk => hq (by rw [← hpq, hk])
          rw [List.map_cons, if_neg hpk, dictGet_cons_pos p _ q hpq,
            dictGet_cons_pos p _ q hpq]
        · by_cases hpk : p.1 = k
          · rw [List.map_cons, if_pos hpk,
              dictGet_cons_neg (p.1, v) _ q hpq, dictGet_cons_neg p _ q hpq, ih]
          · rw [List.map_cons, if_neg hpk,
              dictGet_cons_neg p _ q hpq, dictGet_cons_neg p _ q hpq, ih]
  · rw [if_neg h, dictGet_append]
    cases hd : dictGet d q with
    | some w => rfl
    | none =>
        show dictGet [(k, v)] q = none
        rw [dictGet_cons_neg (k, v) [] q (fun hh => hq hh.symm)]
        rfl

theorem any_key_eq_false_of_not_mem (tl : HeaderDict) (k : String)
    (h : k ∉ tl.map Prod.fst) : tl.any (fun p => p.1 = k) = false := by
  simp only [List.any_eq_false, decide_eq_true_eq]
  intro p hp hpk
  exact h (List.mem_map.mpr ⟨p, hp, hpk⟩)

/-- Lookup in a dict after `d.update(overlay)` (for an overlay with distinct
keys, as every Python dict has): keys of the overlay win; keys absent from
the overlay fall back to their values in `d`. -/
theorem dictGet_dictUpdate (d overlay : HeaderDict) (k : String)
    (hnd : (overlay.map Prod.fst).Nodup) :
    dictGet (dictUpdate d overlay) k =
      match dictGet overlay k with
      | some v => some v
      | none => dictGet d k := by
  induction overlay generalizing d with
  | nil => rfl
  | cons p tl ih =>
      rw [List.map_cons, List.nodup_cons] at hnd
      show dictGet (dictUpdate (dictSet d p.1 p.2) tl) k = _
      rw [ih (dictSet d p.1 p.2) hnd.2]
      by_cases hp : p.1 = k
      · have htl : dictGet tl k = none :=
          dictGet_eq_none_of_not_any tl k
            (any_key_eq_false_of_not_mem tl k (hp ▸ hnd.1))
        rw [htl, dictGet_cons_pos p tl k hp]
        show dictGet (dictSet d p.1 p.2) k = some p.2
        rw [hp]
        exact dictGet_dictSet_same d k p.2
      · rw [dictGet_cons_neg p tl k hp,
          dictGet_dictSet_other d p.1 p.2 k (fun hk => hp hk.symm)]

/-- The `requests` response as the notebook consumes it: `.url`,
`.status_code`, `.ok`, `.content` (bytes, modelled as a string),
`.elapsed.total_seconds()` (modelled as an abstract integer tick count),
and `.json()` for the object-shaped bodies the `Todo` transforms decode
(modelled as the decoded dict). -/
structure Response where
  url : String
  status_code : Int
  ok : Bool
  content : String
  elapsed : Int
  jsonBody : List (String × PyVal)
  deriving DecidableEq

/-- A response-processing stage: a Python function from a response that
may raise. `null_tranform`, `default_error_handler` and the loggers all
have this shape. -/
abbrev Stage := Response → Except PyError Response

/-- `null_tranform(response): return response` (the spelling of the source). -/
def null_tranform : Stage := fun response => .ok response

/-- `null_logger(response): return response`. -/
def null_logger : Stage := fun response => .ok response

/-- `compose_two(f, g)` from the `compose` of the source: the function
`c(x) = f(g(x))`, with Python exception propagation (if `g` raises, `f`
never runs). -/
def compose_two (f : β → Except PyError γ) (g : α → Except PyError β) :
    α → Except PyError γ :=
  fun x => (g x).bind f

/-- The variadic `compose` of the source:
`functools.reduce(compose_two, funcs)`, here with the non-empty argument
list split into head and tail. `compose f [g, h]` is `x ↦ f(g(h(x)))`. -/
def compose (f : α → Except PyError α) (rest : List (α → Except PyError α)) :
    α → Except PyError α :=
  rest.foldl (fun acc g => compose_two acc g) f

/-- The message of the classified failure raised by
`default_error_handler`: the response URL, the status code, and the body
excerpt `content[:25]` — the body truncated to 25 characters. -/
def classifiedMsg (response : Response) : String :=
  "Failed request to " ++ response.url ++ " status:"
    ++ toString response.status_code ++ " " ++ response.content.take 25

/-- `default_error_handler`: on a non-ok response raise a plain
`Exception` carrying `classifiedMsg`, else return the response
unchanged. -/
def default_error_handler : Stage := fun response =>
  if !response.ok then
    .error (.exception (classifiedMsg response))
  else
    .ok response

/-- The `Todo` dataclass before/after validation: its four attributes hold
whatever Python values the constructor received. -/
structure Todo where
  id : PyVal
  user_id : PyVal
  title : PyVal
  completed : PyVal
  deriving DecidableEq

/-- `fields(instance)` for the `Todo` dataclass: name, attribute value and
declared type, in declaration order. -/
def todoFields (t : Todo) : List (String × PyVal × PyType) :=
  [("id", t.id, .tInt), ("user_id", t.user_id, .tInt),
   ("title", t.title, .tStr), ("completed", t.completed, .tBool)]

/-- Name of a declared field type, as Python renders it. -/
def pyTypeName : PyType → String
  | .tInt => "int"
  | .tStr => "str"
  | .tBool => "bool"

/-- Name of the runtime type of a value, as Python renders it. -/
def pyValTypeName : PyVal → String
  | .pyInt _ => "int"
  | .pyStr _ => "str"
  | .pyBool _ => "bool"
  | .pyNone => "NoneType"

/-- The `TypeError` message `validate` formats for a failing field. -/
def typeErrMsg (name : String) (attr : PyVal) (ty : PyType) : String :=
  "Field " ++ name ++ " is of type " ++ pyValTypeName attr ++
    ", should be " ++ pyTypeName ty

/-- `validate(instance)`: walk the dataclass fields in order and raise
`TypeError` at the first attribute that fails `isinstance` against its
declared type. -/
def validateFields : List (String × PyVal × PyType) → Except PyError Unit
  | [] => .ok ()
  | (name, attr, ty) :: rest =>
      if isinstance attr ty then validateFields rest
      else .error (.typeError (typeErrMsg name attr ty))

/-- `validate` applied to a `Todo` instance. -/
def validate (t : Todo) : Except PyError Unit :=
  validateFields (todoFields t)

/-- The `Todo(...)` constructor: `__post_init__` runs `validate`, so
construction raises `TypeError` on an ill-typed field and otherwise yields
the instance. -/
def mkTodo (i u ti c : PyVal) : Except PyError Todo :=
  let t : Todo := ⟨i, u, ti, c⟩
  (validate t).map (fun _ => t)

/-- Python dict subscript `d[k]`: the value at `k`, or `KeyError`. -/
def dictGetV (d : List (String × PyVal)) (k : String) : Except PyError PyVal :=
  match d.find? (fun p => p.1 = k) with
  | some p => .ok p.2
  | none => .error (.keyError k)

/-- `Todo.from_d(d)`: `Todo(d[id], d[userId], d[title],
d[completed])` — the four subscripts are evaluated left to right before
the constructor runs, and `userId` is renamed to the `user_id` field. -/
def Todo.from_d (d : List (String × PyVal)) : Except PyError Todo :=
  (dictGetV d "id").bind fun i =>
    (dictGetV d "userId").bind fun u =>
      (dictGetV d "title").bind fun ti =>
        (dictGetV d "completed").bind fun c =>
          mkTodo i u ti c

/-- `to_todo(response): return Todo.from_d(response.json())`. -/
def to_todo (response : Response) : Except PyError Todo :=
  Todo.from_d response.jsonBody

/-- `to_todo_or_none(response)`: `Todo.from_d(response.json())`, with
`except (KeyError, AttributeError): return None`. Any other exception
(notably the `TypeError` raised by `validate`) propagates. -/
def to_todo_or_none (response : Response) : Except PyError (Option Todo) :=
  match to_todo response with
  | .ok t => .ok (some t)
  | .error (.keyError _) => .ok none
  | .error (.attributeError _) => .ok none
  | .error e => .error e

/-- URL construction in `to_get`: `"/".join([base_url, segment])`. -/
def joinUrl (base_url segment : String) : String :=
  String.intercalate "/" [base_url, segment]

theorem joinUrl_eq (base_url segment : String) :
    joinUrl base_url segment = base_url ++ "/" ++ segment := rfl

/-- Whether a character list contains two adjacent occurrences of `c`. -/
def hasAdjacent (c : Char) (l : List Char) : Bool :=
  (l.zip l.tail).any (fun p => p.1 = c && p.2 = c)

/-- The join point of `joinUrl base_url segment`: the inserted separator
together with its immediate neighbors (the last character of the base and
the first of the segment). -/
def joinNeighborhood (base_url segment : String) : List Char :=
  (base_url.toList.getLast?).toList ++ [Char.ofNat 47] ++ (segment.toList.take 1)

/-- A duplicated separator at the join point of the constructed URL:
the separator inserted by the join is adjacent to another separator. -/
def dupSepAtJoin (base_url segment : String) : Bool :=
  hasAdjacent (Char.ofNat 47) (joinNeighborhood base_url segment)

/-- Everything one call of the fetch closure `f` built by `to_get`
produces: the returned (or raised) value, the value of the closed-over
`headers` dict after the call (it is mutated in place by
`headers.update(h)`), and the URL and header set handed to `requests.get`
when the call reaches the dispatch. -/
instance {ε α : Type} [DecidableEq ε] [DecidableEq α] :
    DecidableEq (Except ε α) := fun a b =>
  match a, b with
  | .ok x, .ok y =>
      if h : x = y then .isTrue (by rw [h]) else .isFalse (by simp [h])
  | .error x, .error y =>
      if h : x = y then .isTrue (by rw [h]) else .isFalse (by simp [h])
  | .ok _, .error _ => .isFalse (by simp)
  | .error _, .ok _ => .isFalse (by simp)

structure FetchOut (α : Type) where
  result : Except PyError α
  headersAfter : Option HeaderDict
  dispatched : Option (String × HeaderDict)
  deriving DecidableEq

/-- The fetch closure `f(segment, **kw)` built by the final `to_get`
iteration, one HTTP dispatch made explicit as the pure `transport`
parameter standing for `requests.get`:

    url = "/".join([base_url, segment])
    h = kw.get(headers-kw, empty dict)
    headers.update(h)              -- AttributeError when headers is None
    kw[headers-kw] = headers
    transform_func = kw.pop(transform-kw, null_tranform)
    err_handler = null_tranform if error_handler is None else error_handler
    logger_func = null_tranform if logger is None else logger
    transform = compose(transform_func, err_handler, logger_func)
    return transform(requests.get(url, **kw))

`headers` is the current value of the closed-over dict (`none` when the
builder was called with its default `headers=None`); `kwHeaders` is the
per-call `headers=` overlay (`none` when absent, so `h` defaults to the
empty dict); `transform_func` is the per-call `transform=` keyword, with
the `null_tranform` of the repo passed by callers that omit it. -/
def fetch (transport : String → HeaderDict → Response)
    (base_url : String) (headers : Option HeaderDict)
    (error_handler : Option Stage) (logger : Option Stage)
    (transform_func : Response → Except PyError α)
    (kwHeaders : Option HeaderDict) (segment : String) : FetchOut α :=
  let url := joinUrl base_url segment
  let h := kwHeaders.getD []
  match headers with
  | none =>
      { result := .error (.attributeError "NoneType object has no attribute update"),
        headersAfter := none,
        dispatched := none }
  | some hd =>
      let merged := dictUpdate hd h
      let err_handler := error_handler.getD null_tranform
      let logger_func := logger.getD null_tranform
      let transform := compose_two (compose_two transform_func err_handler) logger_func
      { result := transform (transport url merged),
        headersAfter := some merged,
        dispatched := some (url, merged) }

/-- Binding through the identity stage changes nothing. -/
theorem bind_null_tranform (x : Except PyError Response) :
    x.bind null_tranform = x := by
  cases x <;> rfl

/-- A mock transport: every request succeeds with status 200 and a
well-formed todo body, reporting the requested URL. -/
def okTransport (url : String) (_hd : HeaderDict) : Response :=
  { url := url, status_code := 200, ok := true, content := "body",
    elapsed := 1,
    jsonBody := [("id", .pyInt 1), ("userId", .pyInt 2),
                 ("title", .pyStr "t"), ("completed", .pyBool false)] }

/-- A mock transport: every request fails with status 404 and an empty
JSON body, reporting the requested URL. -/
def notFoundTransport (url : String) (_hd : HeaderDict) : Response :=
  { url := url, status_code := 404, ok := false, content := "not found",
    elapsed := 1, jsonBody := [] }

/-- C9: composing the identity transform, the identity error classifier,
and the identity logger (the `null_tranform` of the source for all three) and
applying the composition to any response returns that response unchanged,
so every field of the result equals that of the input. -/
theorem compose_identities_id (r : Response) :
    compose null_tranform [null_tranform, null_tranform] r = .ok r := rfl

/-- C10: a pipeline built with the `headers` parameter left at its `None`
default fails every call with an `AttributeError` at the
`headers.update(h)` merge step — for every transport, segment, overlay and
transform — and no request is dispatched. -/
theorem fetch_none_headers_attribute_error {α : Type}
    (transport : String → HeaderDict → Response) (base_url : String)
    (eh lg : Option Stage) (t : Response → Except PyError α)
    (kwh : Option HeaderDict) (seg : String) :
    (fetch transport base_url none eh lg t kwh seg).result
        = .error (.attributeError "NoneType object has no attribute update")
      ∧ (fetch transport base_url none eh lg t kwh seg).dispatched = none :=
  ⟨rfl, rfl⟩

/-- C1: the chain `compose(transform_func, err_handler, logger_func)`
built by `to_get` applies the logger to the raw transport response first,
then the error classifier, then the caller transform; consequently, when
the logger returns its argument unchanged (as the loggers of the notebook do),
the classifier observes exactly the raw response the logger observed. -/
theorem fetch_pipeline_order {α : Type}
    (transport : String → HeaderDict → Response) (base_url : String)
    (hd : HeaderDict) (eh lg : Stage) (t : Response → Except PyError α)
    (kwh : Option HeaderDict) (seg : String) :
    (fetch transport base_url (some hd) (some eh) (some lg) t kwh seg).result
        = ((lg (transport (joinUrl base_url seg) (dictUpdate hd (kwh.getD [])))).bind
            eh).bind t
      ∧ (lg (transport (joinUrl base_url seg) (dictUpdate hd (kwh.getD [])))
            = .ok (transport (joinUrl base_url seg) (dictUpdate hd (kwh.getD []))) →
          (fetch transport base_url (some hd) (some eh) (some lg) t kwh seg).result
            = (eh (transport (joinUrl base_url seg) (dictUpdate hd (kwh.getD [])))).bind t) := by
  have hassoc : ∀ x : Except PyError Response,
      x.bind (fun y => (eh y).bind t) = (x.bind eh).bind t := fun x => by
    cases x <;> rfl
  constructor
  · exact hassoc (lg (transport (joinUrl base_url seg) (dictUpdate hd (kwh.getD []))))
  · intro h
    show (lg (transport (joinUrl base_url seg) (dictUpdate hd (kwh.getD [])))).bind
        (fun y => (eh y).bind t) = _
    rw [h]
    rfl

theorem fetch_pipeline_order_witness :
    (fetch okTransport "b" (some []) (some null_tranform) (some null_tranform)
        null_tranform none "s").result
      = (null_tranform (okTransport (joinUrl "b" "s")
          (dictUpdate [] ((none : Option HeaderDict).getD [])))).bind null_tranform :=
  (fetch_pipeline_order okTransport "b" [] null_tranform null_tranform
    null_tranform none "s").2 rfl

/-- C3 counterexample: with the non-empty base "http://x" and the empty
segment, no precondition failure occurs — the request is dispatched to
"http://x/" and the identity pipeline returns the transport response. -/
theorem fetch_empty_segment_cex :
    (fetch okTransport "http://x" (some []) none none null_tranform none "").dispatched
        = some ("http://x/", [])
      ∧ (fetch okTransport "http://x" (some []) none none null_tranform none "").result
        = .ok (okTransport "http://x/" []) :=
  ⟨rfl, rfl⟩

/-- C3 amended: the fetch closure applies no emptiness precondition at
all: for every base address and segment — the empty ones included — it
constructs `joinUrl base_url segment` and dispatches the request with the
merged headers. -/
theorem fetch_no_empty_check {α : Type}
    (transport : String → HeaderDict → Response) (base_url : String)
    (hd : HeaderDict) (eh lg : Option Stage) (t : Response → Except PyError α)
    (kwh : Option HeaderDict) (seg : String) :
    (fetch transport base_url (some hd) eh lg t kwh seg).dispatched
      = some (joinUrl base_url seg, dictUpdate hd (kwh.getD [])) := rfl

/-- C2: with `default_error_handler` configured (identity transform and
logger), `fetch` raises the classified failure — whose message carries the
response URL, the status code, and the body excerpt truncated to 25
characters — if and only if the transport response has a non-success
status; on a success status the classifier returns the response unchanged
and so does `fetch`. When the transport reports the requested URL on the
response, the failure message therefore carries the request URL. -/
theorem fetch_classified_failure_iff (raw : Response)
    (transport : String → HeaderDict → Response) (base_url : String)
    (hd : HeaderDict) (kwh : Option HeaderDict) (seg : String)
    (hraw : transport (joinUrl base_url seg) (dictUpdate hd (kwh.getD [])) = raw) :
    ((fetch transport base_url (some hd) (some default_error_handler) none
        null_tranform kwh seg).result = .error (.exception (classifiedMsg raw))
      ↔ raw.ok = false)
    ∧ (raw.ok = true → default_error_handler raw = .ok raw
        ∧ (fetch transport base_url (some hd) (some default_error_handler) none
            null_tranform kwh seg).result = .ok raw)
    ∧ (raw.url = joinUrl base_url seg →
        classifiedMsg raw = "Failed request to " ++ joinUrl base_url seg
          ++ " status:" ++ toString raw.status_code ++ " " ++ raw.content.take 25) := by
  have hres : (fetch transport base_url (some hd) (some default_error_handler) none
      null_tranform kwh seg).result = default_error_handler raw := by
    show ((null_tranform (transport (joinUrl base_url seg) (dictUpdate hd (kwh.getD [])))).bind
        default_error_handler).bind null_tranform = _
    rw [hraw]
    show ((Except.ok raw).bind default_error_handler).bind null_tranform = _
    rw [bind_null_tranform]
    rfl
  refine ⟨?_, ?_, ?_⟩
  · rw [hres]
    unfold default_error_handler
    cases hok : raw.ok with
    | false => simp
    | true => simp
  · intro hok
    have hdeh : default_error_handler raw = .ok raw := by
      unfold default_error_handler
      rw [hok]
      rfl
    exact ⟨hdeh, by rw [hres, hdeh]⟩
  · intro hurl
    unfold classifiedMsg
    rw [hurl]

theorem fetch_classified_failure_iff_witness :
    (fetch notFoundTransport "b" (some []) (some default_error_handler) none
        null_tranform none "x").result
      = .error (.exception (classifiedMsg (notFoundTransport (joinUrl "b" "x")
          (dictUpdate [] ((none : Option HeaderDict).getD []))))) :=
  ((fetch_classified_failure_iff
      (notFoundTransport (joinUrl "b" "x") (dictUpdate [] ((none : Option HeaderDict).getD [])))
      notFoundTransport "b" [] none "x" rfl).1).mpr rfl

/-- C4 counterexample: the base "a/" and the segment "b" are both
non-empty, yet the URL the code constructs is "a//b" — the separator is
duplicated at the join point. -/
theorem joinUrl_dup_separator_cex :
    ("a/" : String) ≠ "" ∧ ("b" : String) ≠ ""
      ∧ joinUrl "a/" "b" = "a//b" ∧ dupSepAtJoin "a/" "b" = true :=
  ⟨by decide, by decide, rfl, by decide⟩

/-- C4 amended: for every non-empty base and segment the constructed URL
equals base ++ "/" ++ segment (exactly one separator inserted by the
join); the join point is free of duplicated separators provided the base
does not end with the separator and the segment does not start with it —
the code itself never strips such slashes. -/
theorem joinUrl_single_separator (b s : String) (_hb : b ≠ "") (_hs : s ≠ "")
    (hbe : b.toList.getLast? ≠ some (Char.ofNat 47))
    (hss : s.toList.head? ≠ some (Char.ofNat 47)) :
    joinUrl b s = b ++ "/" ++ s ∧ dupSepAtJoin b s = false := by
  refine ⟨joinUrl_eq b s, ?_⟩
  unfold dupSepAtJoin joinNeighborhood hasAdjacent
  cases hl : b.toList.getLast? with
  | none =>
      cases hsl : s.toList with
      | nil => simp
      | cons c2 cs =>
          have hc2 : ¬ (c2 = Char.ofNat 47) := by
            intro h2
            exact hss (by rw [hsl]; simp [h2])
          simp [hc2]
  | some c =>
      have hc : ¬ (c = Char.ofNat 47) := fun hcc => hbe (by rw [hl, hcc])
      cases hsl : s.toList with
      | nil => simp [hc]
      | cons c2 cs =>
          have hc2 : ¬ (c2 = Char.ofNat 47) := by
            intro h2
            exact hss (by rw [hsl]; simp [h2])
          simp [hc, hc2]

theorem joinUrl_single_separator_witness :
    joinUrl "a" "b" = "a" ++ "/" ++ "b" ∧ dupSepAtJoin "a" "b" = false :=
  joinUrl_single_separator "a" "b" (by decide) (by decide) (by decide) (by decide)

/-- C5: the headers dispatched with the request equal the closed-over
default set shallow-merged with the per-call overlay: overlay keys win on
collision and keys absent from the overlay retain their default values. -/
theorem fetch_headers_merge {α : Type}
    (transport : String → HeaderDict → Response) (base_url : String)
    (hd overlay : HeaderDict) (eh lg : Option Stage)
    (t : Response → Except PyError α) (seg k : String)
    (hnd : (overlay.map Prod.fst).Nodup) :
    (fetch transport base_url (some hd) eh lg t (some overlay) seg).dispatched
        = some (joinUrl base_url seg, dictUpdate hd overlay)
      ∧ dictGet (dictUpdate hd overlay) k
        = match dictGet overlay k with
          | some v => some v
          | none => dictGet hd k :=
  ⟨rfl, dictGet_dictUpdate hd overlay k hnd⟩

theorem fetch_headers_merge_witness :
    (fetch okTransport "u" (some [("a", "1"), ("b", "2")]) none none
        null_tranform (some [("b", "3"), ("c", "4")]) "s").dispatched
        = some (joinUrl "u" "s", dictUpdate [("a", "1"), ("b", "2")] [("b", "3"), ("c", "4")])
      ∧ dictGet (dictUpdate [("a", "1"), ("b", "2")] [("b", "3"), ("c", "4")]) "b"
        = match dictGet [("b", "3"), ("c", "4")] "b" with
          | some v => some v
          | none => dictGet [("a", "1"), ("b", "2")] "b" :=
  fetch_headers_merge okTransport "u" [("a", "1"), ("b", "2")]
    [("b", "3"), ("c", "4")] none none null_tranform "s" "b" (by decide)

/-- C6: a call supplying a header overlay mutates the closed-over default
header dict in place — after the call the dict is the merged result and
carries the overlay key — and every subsequent call on the same pipeline
whose own overlay does not rebind that key dispatches headers that still
carry it, and leaves it in the dict again, so the key persists
indefinitely. -/
theorem fetch_mutates_default_headers {α : Type}
    (transport : String → HeaderDict → Response) (base_url : String)
    (hd ov : HeaderDict) (eh lg : Option Stage)
    (t : Response → Except PyError α) (seg k v : String)
    (hk : dictGet ov k = some v) (hnd : (ov.map Prod.fst).Nodup) :
    (fetch transport base_url (some hd) eh lg t (some ov) seg).headersAfter
        = some (dictUpdate hd ov)
      ∧ dictGet (dictUpdate hd ov) k = some v
      ∧ ∀ (hd₂ ov₂ : HeaderDict) (seg₂ : String),
          dictGet hd₂ k = some v → dictGet ov₂ k = none →
          (ov₂.map Prod.fst).Nodup →
          (fetch transport base_url (some hd₂) eh lg t (some ov₂) seg₂).dispatched
              = some (joinUrl base_url seg₂, dictUpdate hd₂ ov₂)
            ∧ dictGet (dictUpdate hd₂ ov₂) k = some v
            ∧ (fetch transport base_url (some hd₂) eh lg t (some ov₂) seg₂).headersAfter
              = some (dictUpdate hd₂ ov₂) := by
  refine ⟨rfl, ?_, ?_⟩
  · rw [dictGet_dictUpdate hd ov k hnd, hk]
  · intro hd₂ ov₂ seg₂ h2 hnone hnd₂
    refine ⟨rfl, ?_, rfl⟩
    rw [dictGet_dictUpdate hd₂ ov₂ k hnd₂, hnone, h2]

theorem fetch_mutates_default_headers_witness :
    dictGet (dictUpdate (dictUpdate [("a", "1")] [("x", "9")]) []) "x" = some "9" :=
  ((fetch_mutates_default_headers okTransport "b" [("a", "1")] [("x", "9")]
      none none null_tranform "s" "x" "9" (by decide) (by decide)).2.2
    (dictUpdate [("a", "1")] [("x", "9")]) [] "s2" (by decide) rfl (by decide)).2.1

/-- `Todo.from_d` reduced through successful lookups: the four subscripts
feed the constructor (which still runs `validate`). -/
theorem from_d_eq (d : List (String × PyVal)) (v1 v2 v3 v4 : PyVal)
    (g1 : dictGetV d "id" = .ok v1) (g2 : dictGetV d "userId" = .ok v2)
    (g3 : dictGetV d "title" = .ok v3) (g4 : dictGetV d "completed" = .ok v4) :
    Todo.from_d d = mkTodo v1 v2 v3 v4 := by
  simp only [Todo.from_d, g1, g2, g3, g4]
  rfl

/-- C7: a well-formed body with fields id, userId, title, completed of the
declared types decodes to a `Todo` whose id, user_id, title, completed
fields hold the same values — `userId` renamed to `user_id` — and whenever
the four looked-up values are not all instances of the declared types,
construction raises a `TypeError` immediately. -/
theorem from_d_well_formed (d : List (String × PyVal)) (i u : Int)
    (ti : String) (c : Bool)
    (h1 : dictGetV d "id" = .ok (.pyInt i))
    (h2 : dictGetV d "userId" = .ok (.pyInt u))
    (h3 : dictGetV d "title" = .ok (.pyStr ti))
    (h4 : dictGetV d "completed" = .ok (.pyBool c)) :
    Todo.from_d d = .ok ⟨.pyInt i, .pyInt u, .pyStr ti, .pyBool c⟩
    ∧ ∀ (d₂ : List (String × PyVal)) (v1 v2 v3 v4 : PyVal),
        dictGetV d₂ "id" = .ok v1 → dictGetV d₂ "userId" = .ok v2 →
        dictGetV d₂ "title" = .ok v3 → dictGetV d₂ "completed" = .ok v4 →
        ¬ (isinstance v1 .tInt = true ∧ isinstance v2 .tInt = true
            ∧ isinstance v3 .tStr = true ∧ isinstance v4 .tBool = true) →
        ∃ m, Todo.from_d d₂ = .error (.typeError m) := by
  constructor
  · rw [from_d_eq d _ _ _ _ h1 h2 h3 h4]
    rfl
  · intro d₂ v1 v2 v3 v4 g1 g2 g3 g4 hbad
    rw [from_d_eq d₂ v1 v2 v3 v4 g1 g2 g3 g4]
    by_cases k1 : isinstance v1 PyType.tInt = true
    · by_cases k2 : isinstance v2 PyType.tInt = true
      · by_cases k3 : isinstance v3 PyType.tStr = true
        · by_cases k4 : isinstance v4 PyType.tBool = true
          · exact absurd ⟨k1, k2, k3, k4⟩ hbad
          · exact ⟨typeErrMsg "completed" v4 PyType.tBool,
              by simp [mkTodo, validate, todoFields, validateFields, Except.map, k1, k2, k3, k4]⟩
        · exact ⟨typeErrMsg "title" v3 PyType.tStr,
            by simp [mkTodo, validate, todoFields, validateFields, Except.map, k1, k2, k3]⟩
      · exact ⟨typeErrMsg "user_id" v2 PyType.tInt,
          by simp [mkTodo, validate, todoFields, validateFields, Except.map, k1, k2]⟩
    · exact ⟨typeErrMsg "id" v1 PyType.tInt,
        by simp [mkTodo, validate, todoFields, validateFields, Except.map, k1]⟩

theorem from_d_well_formed_witness :
    Todo.from_d [("id", PyVal.pyInt 1), ("userId", PyVal.pyInt 2),
        ("title", PyVal.pyStr "t"), ("completed", PyVal.pyBool true)]
      = .ok ⟨.pyInt 1, .pyInt 2, .pyStr "t", .pyBool true⟩ :=
  (from_d_well_formed [("id", PyVal.pyInt 1), ("userId", PyVal.pyInt 2),
      ("title", PyVal.pyStr "t"), ("completed", PyVal.pyBool true)]
    1 2 "t" true rfl rfl rfl rfl).1

/-- A response whose decoded body is missing the required userId field
(and the title and completed fields): the shape a 404 body produces. -/
def missingFieldResponse : Response :=
  { url := "u", status_code := 200, ok := true, content := "",
    elapsed := 0, jsonBody := [("id", .pyInt 1)] }

/-- A response whose decoded body has the id field bound to a string: a
decode (validation) failure that is a TypeError, not a KeyError. -/
def illTypedResponse : Response :=
  { url := "u", status_code := 200, ok := true, content := "",
    elapsed := 0,
    jsonBody := [("id", .pyStr "x"), ("userId", .pyInt 1),
                 ("title", .pyStr "t"), ("completed", .pyBool false)] }

/-- C8 counterexample: on a body whose id field holds a string — a decode
failure — the lenient transform does not return the absent-value sentinel:
the `TypeError` raised by `validate` is outside the
`(KeyError, AttributeError)` catch and propagates. -/
theorem to_todo_or_none_not_any_failure_cex :
    to_todo_or_none illTypedResponse
        = .error (.typeError (typeErrMsg "id" (.pyStr "x") .tInt))
      ∧ to_todo_or_none illTypedResponse ≠ .ok none :=
  ⟨rfl, by decide⟩

/-- C8 amended: for a decoded body missing the required userId field (its
id field present), the strict transform `to_todo` raises the `KeyError`
decode failure while the lenient transform `to_todo_or_none` returns the
absent-value sentinel; but the lenient transform does not return the
sentinel on every decode failure — it swallows only `KeyError` and
`AttributeError`, and the `TypeError` raised by field validation
propagates. -/
theorem to_todo_strict_vs_lenient (r : Response) (v : PyVal)
    (hid : dictGetV r.jsonBody "id" = .ok v)
    (hmiss : dictGetV r.jsonBody "userId" = .error (.keyError "userId")) :
    to_todo r = .error (.keyError "userId")
    ∧ to_todo_or_none r = .ok none
    ∧ (∀ (r₂ : Response) (m : String),
        to_todo r₂ = .error (.typeError m) →
        to_todo_or_none r₂ = .error (.typeError m)) := by
  have h1 : to_todo r = .error (.keyError "userId") := by
    unfold to_todo
    simp only [Todo.from_d, hid, hmiss]
    rfl
  refine ⟨h1, ?_, ?_⟩
  · unfold to_todo_or_none
    rw [h1]
  · intro r₂ m hm
    unfold to_todo_or_none
    rw [hm]

theorem to_todo_strict_vs_lenient_witness :
    to_todo missingFieldResponse = .error (.keyError "userId")
      ∧ to_todo_or_none missingFieldResponse = .ok none :=
  ⟨(to_todo_strict_vs_lenient missingFieldResponse (.pyInt 1) rfl rfl).1,
   (to_todo_strict_vs_lenient missingFieldResponse (.pyInt 1) rfl rfl).2.1⟩

end FPy
